import Mathlib

/-!
Verification of the mutable-to-frozen snapshot protocol
(`app/buck2_build_api/src/dynamic/params.rs`) and of the Starlark `Result`
sum type (`app/buck2_bxl/src/bxl/starlark_defs/result.rs`).

Shallow embedding conventions:
* Starlark runtime values are modelled as a kind tag plus an opaque payload;
  `FrozenValue.to_value` is the context-local projection (re-hydration),
  which preserves the content.
* Fallible Rust functions returning `anyhow::Result` are modelled with
  `Except`.
* The `Freezer` of the Starlark engine is an external collaborator: it is
  modelled as an arbitrary fallible function from mutable values to frozen
  values.
-/

/-- Kinds of Starlark runtime values that the two files distinguish:
structs (attribute records), `AnalysisPlugins` collections, callables and
everything else. -/
inductive VKind where
  | structKind
  | pluginsKind
  | callableKind
  | plainKind
deriving DecidableEq, Repr

/-- Mutable (thread-local) Starlark value `Value<'v>`: a kind tag plus an
opaque payload standing for the heap content. -/
structure Value where
  kind : VKind
  payload : Nat
deriving DecidableEq, Repr

/-- Frozen Starlark value `FrozenValue`: same content, immutable
representation. -/
structure FrozenValue where
  kind : VKind
  payload : Nat
deriving DecidableEq, Repr

/-- Projection of a frozen value into a calling evaluation context
(`ValueLike::to_value`). It preserves the content. -/
def FrozenValue.to_value (f : FrozenValue) : Value :=
  { kind := f.kind, payload := f.payload }

/-- Human-readable name of a kind, used by the `Display` model. -/
def VKind.name : VKind → String
  | .structKind => "struct"
  | .pluginsKind => "AnalysisPlugins"
  | .callableKind => "function"
  | .plainKind => "value"

/-- Model of `Display` for a mutable Starlark value. -/
def Value.displayStr (v : Value) : String :=
  v.kind.name ++ "#" ++ toString v.payload

/-- Model of `Display` for a frozen Starlark value: a frozen value displays
exactly as its thawed projection. -/
def FrozenValue.displayStr (f : FrozenValue) : String :=
  Value.displayStr f.to_value

/-- Structured, chainable error of the `buck2_error` crate: a message,
optionally wrapping a cause. -/
inductive Buck2Error where
  | msg (text : String)
  | context (text : String) (cause : Buck2Error)
deriving DecidableEq, Repr

/-- Debug rendering of a `buck2_error::Error` (Rust `{:?}`): the outer
message followed by the chain of causes. -/
def Buck2Error.debugFmt : Buck2Error → String
  | .msg t => t
  | .context t c => t ++ "; caused by: " ++ debugFmt c

/-- Display rendering of a `buck2_error::Error` (Rust `{}`): the outermost
message. -/
def Buck2Error.displayFmt : Buck2Error → String
  | .msg t => t
  | .context t _ => t

/-- The individual message of every link of the cause chain, outermost
first. -/
def Buck2Error.chainTexts : Buck2Error → List String
  | .msg t => [t]
  | .context t c => t :: chainTexts c

/-- Substring containment on strings. -/
def strContains (hay needle : String) : Prop :=
  ∃ pre post, hay = pre ++ needle ++ post

/-- Error enum `BxlResultError` of `result.rs`: `UnwrapOnError` carries the
original error, `UnwrapErrOnOk` carries the stringified success payload. -/
inductive BxlResultError where
  | UnwrapOnError (e : Buck2Error)
  | UnwrapErrOnOk (s : String)
deriving DecidableEq, Repr

/-- Messages produced by the `#[error(...)]` attributes on `BxlResultError`. -/
def BxlResultError.message : BxlResultError → String
  | .UnwrapOnError e =>
      "called `bxl.Result.unwrap()` on an `Err` value: " ++ e.displayFmt
  | .UnwrapErrOnOk s =>
      "called `bxl.Result.unwrap_err()` on an `Ok` value: " ++ s

/-- Structural cause carried by a `BxlResultError`: `UnwrapOnError` wraps the
original error, `UnwrapErrOnOk` wraps none (only a string). -/
def BxlResultError.cause : BxlResultError → Option Buck2Error
  | .UnwrapOnError e => some e
  | .UnwrapErrOnOk _ => none

/-- Error value object `StarlarkError` returned by fallible BXL operations:
wraps a `buck2_error::Error`. -/
structure StarlarkError where
  err : Buck2Error
deriving DecidableEq, Repr

/-- Attribute `message` of `error_methods`: the debug-formatted text of the
wrapped error (`format!("{:?}", this.err)`). -/
def StarlarkError.message (this : StarlarkError) : String :=
  this.err.debugFmt

/-- The two-variant result `StarlarkResultGen<T>` of `result.rs`: `Ok`
carries a payload in representation `T`, `Err` carries a
`buck2_error::Error`. -/
inductive StarlarkResultGen (T : Type) where
  | Ok (val : T)
  | Err (err : Buck2Error)
deriving DecidableEq, Repr

/-- Method `is_ok`: true exactly on the `Ok` variant. -/
def StarlarkResultGen.is_ok {T : Type} : StarlarkResultGen T → Bool
  | .Ok _ => true
  | .Err _ => false

/-- Method `unwrap`, generic over `V : ValueLike` through its `to_value`
projection: returns the projected payload on `Ok`, fails with
`UnwrapOnError` carrying the original error on `Err`. -/
def StarlarkResultGen.unwrap {T : Type} (to_value : T → Value) :
    StarlarkResultGen T → Except BxlResultError Value
  | .Ok val => Except.ok (to_value val)
  | .Err err => Except.error (BxlResultError.UnwrapOnError err)

/-- Method `unwrap_err`, generic over the representation through its
`Display` rendering: returns the wrapped error on `Err`, fails with
`UnwrapErrOnOk` carrying the stringified payload on `Ok`. -/
def StarlarkResultGen.unwrap_err {T : Type} (displayStr : T → String) :
    StarlarkResultGen T → Except BxlResultError StarlarkError
  | .Ok val => Except.error (BxlResultError.UnwrapErrOnOk (displayStr val))
  | .Err err => Except.ok { err := err }

/-- Constructor `from_result`: lifts a fallible outcome into the sum type. -/
def StarlarkResultGen.from_result {T : Type} :
    Except Buck2Error T → StarlarkResultGen T
  | .ok val => .Ok val
  | .error err => .Err err

/-- Representation change on the payload, keeping the variant and the error.
`StarlarkResultGen FrozenValue` value `r` and the mutable
`r.mapVal FrozenValue.to_value` hold the same variant and content; this is
how the method receiver dispatch relates the two representations. -/
def StarlarkResultGen.mapVal {T U : Type} (f : T → U) :
    StarlarkResultGen T → StarlarkResultGen U
  | .Ok v => .Ok (f v)
  | .Err e => .Err e

/-- Escape of one character in the model of `StarlarkStr::repr`. -/
def escapeChar (c : Char) : String :=
  if c = '\\' then "\\\\"
  else if c = '\"' then "\\\""
  else if c = '\n' then "\\n"
  else String.singleton c

/-- Model of `StarlarkStr::repr`: the string surrounded by double quotes,
with its content escaped. -/
def starlarkStrRepr (s : String) : String :=
  "\"" ++ String.join (s.data.map escapeChar) ++ "\""

/-- The `Display` implementation of `StarlarkResultGen<T>`: `Ok` as a tagged
container around the payload display (`fmt_container` with prefix
`Result(Ok = ` and suffix `)`), `Err` as a tagged container around the
quoted debug form of the error. -/
def StarlarkResultGen.displayFmt {T : Type} (displayStr : T → String) :
    StarlarkResultGen T → String
  | .Ok val => "Result(Ok = " ++ displayStr val ++ ")"
  | .Err err => "Result(Err = " ++ starlarkStrRepr (Buck2Error.debugFmt err) ++ ")"

/-- The `#[display(...)]` rendering of `StarlarkError`. -/
def StarlarkError.displayFmt (e : StarlarkError) : String :=
  "bx.Error(" ++ starlarkStrRepr e.err.debugFmt ++ ")"

/-- Static fields `DynamicLambdaStaticFields` of `params.rs`: the owner key,
the input artifacts to materialize, the produced build artifacts and the
inherited execution platform, all modelled by opaque identifiers. -/
structure DynamicLambdaStaticFields where
  owner : String
  dynamic : List String
  outputs : List String
  execution_platform : String
deriving DecidableEq, Repr

/-- Mutable parameter bundle `DynamicLambdaParams<'v>`: optional attributes
record, optional plugins collection, the mandatory callable, an optional
free-form argument, plus the static fields. -/
structure DynamicLambdaParams where
  attributes : Option Value
  plugins : Option Value
  lambda : Value
  arg : Option Value
  static_fields : DynamicLambdaStaticFields
deriving DecidableEq, Repr

/-- Frozen parameter bundle `FrozenDynamicLambdaParams`: the same shape with
frozen values. The typed wrappers of the Rust fields are erased to the
kind-tagged runtime value, which the accessors re-check. -/
structure FrozenDynamicLambdaParams where
  attributes : Option FrozenValue
  plugins : Option FrozenValue
  lambda : FrozenValue
  arg : Option FrozenValue
  static_fields : DynamicLambdaStaticFields
deriving DecidableEq, Repr

/-- Freezing an optional field: models both `OptionExt::try_map` (used for
`attributes`) and the `Freeze` instance of `Option` (used for `plugins` and
`arg`): `None` stays `None`, `Some v` freezes `v` and propagates its
failure. -/
def optionFreeze (freezer : Value → Except String FrozenValue) :
    Option Value → Except String (Option FrozenValue)
  | none => Except.ok none
  | some v => (freezer v).map some

/-- The `Freeze` implementation of `DynamicLambdaParams`: freezes
`attributes`, `plugins`, `lambda` and `arg` in field order, propagating the
first failure, and moves `static_fields` through unchanged. -/
def DynamicLambdaParams.freeze (freezer : Value → Except String FrozenValue)
    (p : DynamicLambdaParams) : Except String FrozenDynamicLambdaParams := do
  let attributes ← optionFreeze freezer p.attributes
  let plugins ← optionFreeze freezer p.plugins
  let lambda ← freezer p.lambda
  let arg ← optionFreeze freezer p.arg
  Except.ok
    { attributes := attributes, plugins := plugins, lambda := lambda,
      arg := arg, static_fields := p.static_fields }

/-- Model of `buck2_error::BuckErrorContext::internal_error`: tags a message
as an internal invariant violation. -/
def internalError (s : String) : String :=
  s ++ " (internal error)"

/-- Model of `ValueTypedComplex::<AnalysisPlugins>::new`: succeeds exactly
when the value is an `AnalysisPlugins` value. -/
def valueTypedComplexNew (v : Value) : Option Value :=
  if v.kind = VKind.pluginsKind then some v else none

/-- Accessor `FrozenDynamicLambdaParams::attributes`: projects the stored
optional attributes record into the calling context; never fails (the
`cast` is unchecked). -/
def FrozenDynamicLambdaParams.attributesAcc (f : FrozenDynamicLambdaParams) :
    Except String (Option Value) :=
  match f.attributes with
  | none => Except.ok none
  | some a => Except.ok (some a.to_value)

/-- Accessor `FrozenDynamicLambdaParams::plugins`: projects the stored
optional plugins collection into the calling context, re-checking through
`ValueTypedComplex::new` that the stored value is an `AnalysisPlugins`
value and failing with an internal error otherwise. -/
def FrozenDynamicLambdaParams.pluginsAcc (f : FrozenDynamicLambdaParams) :
    Except String (Option Value) :=
  match f.plugins with
  | none => Except.ok none
  | some p =>
    match valueTypedComplexNew p.to_value with
    | some v => Except.ok (some v)
    | none => Except.error (internalError "plugins must be AnalysisPlugins")

/-- Accessor `FrozenDynamicLambdaParams::lambda`: projects the stored
callable into the calling context; total. -/
def FrozenDynamicLambdaParams.lambdaAcc (f : FrozenDynamicLambdaParams) :
    Value :=
  f.lambda.to_value

/-- Accessor `FrozenDynamicLambdaParams::arg`: projects the stored optional
argument into the calling context; total. -/
def FrozenDynamicLambdaParams.argAcc (f : FrozenDynamicLambdaParams) :
    Option Value :=
  f.arg.map FrozenValue.to_value

/-- Example static fields used by concrete witnesses. -/
def exStatic : DynamicLambdaStaticFields :=
  { owner := "rule:foo", dynamic := ["art1"], outputs := ["art2"],
    execution_platform := "platform" }

/-- Freezer that freezes every value by copying its content. -/
def okFreezer : Value → Except String FrozenValue :=
  fun v => Except.ok { kind := v.kind, payload := v.payload }

/-- Freezer that rejects every value. -/
def failingFreezer : Value → Except String FrozenValue :=
  fun _ => Except.error "cannot freeze"

/-- Freezer that rejects exactly the plugins values. -/
def pluginsFailFreezer : Value → Except String FrozenValue :=
  fun v =>
    if v.kind = VKind.pluginsKind then Except.error "cannot freeze plugins"
    else Except.ok { kind := v.kind, payload := v.payload }

/-- Example bundle with no populated optional field. -/
def exBundleNoOptional : DynamicLambdaParams :=
  { attributes := none, plugins := none,
    lambda := { kind := VKind.callableKind, payload := 7 }, arg := none,
    static_fields := exStatic }

/-- Example bundle whose only populated optional field is `plugins`. -/
def exBundleWithPlugins : DynamicLambdaParams :=
  { attributes := none,
    plugins := some { kind := VKind.pluginsKind, payload := 5 },
    lambda := { kind := VKind.callableKind, payload := 7 }, arg := none,
    static_fields := exStatic }

theorem except_bind_ok {ε α β : Type} (a : α) (f : α → Except ε β) :
    (Except.ok a : Except ε α) >>= f = f a := rfl

theorem except_bind_error {ε α β : Type} (e : ε) (f : α → Except ε β) :
    (Except.error e : Except ε α) >>= f = (Except.error e : Except ε β) := rfl

theorem strContains_of_eq (hay pre needle post : String)
    (h : hay = pre ++ (needle ++ post)) : strContains hay needle :=
  ⟨pre, post, by rw [String.append_assoc]; exact h⟩

theorem debugFmt_contains_chain (e : Buck2Error) :
    ∀ t ∈ e.chainTexts, strContains e.debugFmt t := by
  induction e with
  | msg s =>
    intro t ht
    simp only [Buck2Error.chainTexts, List.mem_singleton] at ht
    subst ht
    refine ⟨"", "", ?_⟩
    rw [String.empty_append, String.append_empty]
    rfl
  | context s c ih =>
    intro t ht
    simp only [Buck2Error.chainTexts, List.mem_cons] at ht
    rcases ht with h | h
    · subst h
      refine ⟨"", "; caused by: " ++ c.debugFmt, ?_⟩
      rw [String.empty_append]
      show t ++ "; caused by: " ++ c.debugFmt
          = t ++ ("; caused by: " ++ c.debugFmt)
      rw [String.append_assoc]
    · rcases ih t h with ⟨p, q, hp⟩
      refine ⟨s ++ "; caused by: " ++ p, q, ?_⟩
      show s ++ "; caused by: " ++ c.debugFmt
          = s ++ "; caused by: " ++ p ++ t ++ q
      rw [hp]
      simp only [String.append_assoc]

/-- Claim C6: `is_ok` returns `true` on `Ok(v)` and `false` on `Err(e)`; it
is a total function of the result value and never fails. -/
theorem is_ok_total_spec (T : Type) (v : T) (e : Buck2Error) :
    (StarlarkResultGen.Ok v).is_ok = true
  ∧ (StarlarkResultGen.Err e : StarlarkResultGen T).is_ok = false :=
  ⟨rfl, rfl⟩

/-- Claim C4: `unwrap` on `Ok(v)` returns the payload `v`, and `unwrap` on
`Err(e)` fails with the called-unwrap-on-error condition whose structural
cause is the original error `e`, not swallowed. -/
theorem unwrap_spec (v : Value) (e : Buck2Error) :
    (StarlarkResultGen.Ok v).unwrap id = Except.ok v
  ∧ (StarlarkResultGen.Err e : StarlarkResultGen Value).unwrap id
      = Except.error (BxlResultError.UnwrapOnError e)
  ∧ BxlResultError.cause (BxlResultError.UnwrapOnError e) = some e
  ∧ BxlResultError.message (BxlResultError.UnwrapOnError e)
      = "called `bxl.Result.unwrap()` on an `Err` value: " ++ e.displayFmt :=
  ⟨rfl, rfl, rfl, rfl⟩

/-- Claim C5: `unwrap_err` on `Err(e)` returns the wrapped error `e` (whose
`message` is the full debug text of `e`), and `unwrap_err` on `Ok(v)` fails
with the called-unwrap-err-on-success condition whose message contains the
display rendering of `v` rather than `v` itself. -/
theorem unwrap_err_spec (v : Value) (e : Buck2Error) :
    (StarlarkResultGen.Err e : StarlarkResultGen Value).unwrap_err Value.displayStr
      = Except.ok { err := e }
  ∧ StarlarkError.message { err := e } = e.debugFmt
  ∧ (StarlarkResultGen.Ok v).unwrap_err Value.displayStr
      = Except.error (BxlResultError.UnwrapErrOnOk (Value.displayStr v))
  ∧ strContains
      (BxlResultError.message (BxlResultError.UnwrapErrOnOk (Value.displayStr v)))
      (Value.displayStr v) := by
  refine ⟨rfl, rfl, rfl, ?_⟩
  refine ⟨"called `bxl.Result.unwrap_err()` on an `Ok` value: ", "", ?_⟩
  rw [String.append_empty]
  rfl

/-- Claim C7: the `message` accessor of the error value object returns the
full debug-formatted text of the wrapped error, and that text contains the
message of every link of the chain of causes. -/
theorem error_message_spec (e : Buck2Error) :
    StarlarkError.message { err := e } = e.debugFmt
  ∧ ∀ t, t ∈ e.chainTexts → strContains (StarlarkError.message { err := e }) t :=
  ⟨rfl, fun t ht => debugFmt_contains_chain e t ht⟩

theorem error_message_spec_witness :
    strContains
      (StarlarkError.message
        { err := Buck2Error.context "outer failure" (Buck2Error.msg "boom") })
      "boom" :=
  (error_message_spec
      (Buck2Error.context "outer failure" (Buck2Error.msg "boom"))).2
    "boom" (by decide)

/-- Claim C9: the display form renders `Ok(v)` as a tagged container around
the display form of `v`, and `Err(e)` as a tagged container around the
quoted (escaped, double-quoted) debug form of `e`. -/
theorem display_spec (v : Value) (e : Buck2Error) :
    (StarlarkResultGen.Ok v).displayFmt Value.displayStr
      = "Result(Ok = " ++ Value.displayStr v ++ ")"
  ∧ (StarlarkResultGen.Err e : StarlarkResultGen Value).displayFmt Value.displayStr
      = "Result(Err = " ++ starlarkStrRepr e.debugFmt ++ ")"
  ∧ ∃ body, starlarkStrRepr e.debugFmt = "\"" ++ body ++ "\"" :=
  ⟨rfl, rfl, String.join (e.debugFmt.data.map escapeChar), rfl⟩

/-- Claim C10: `is_ok`, `unwrap` and `unwrap_err` produce the same outcome
on the frozen representation of a result and on the mutable representation
holding the same variant and payload. -/
theorem result_methods_repr_equiv (r : StarlarkResultGen FrozenValue) :
    (r.mapVal FrozenValue.to_value).is_ok = r.is_ok
  ∧ (r.mapVal FrozenValue.to_value).unwrap id = r.unwrap FrozenValue.to_value
  ∧ (r.mapVal FrozenValue.to_value).unwrap_err Value.displayStr
      = r.unwrap_err FrozenValue.displayStr := by
  cases r with
  | Ok v => exact ⟨rfl, rfl, rfl⟩
  | Err e => exact ⟨rfl, rfl, rfl⟩

theorem optionFreeze_ok_iff (freezer : Value → Except String FrozenValue)
    (o : Option Value) (r : Option FrozenValue) :
    optionFreeze freezer o = Except.ok r ↔
      (o = none ∧ r = none)
    ∨ (∃ v fv, o = some v ∧ freezer v = Except.ok fv ∧ r = some fv) := by
  cases o with
  | none => simp [optionFreeze, eq_comm]
  | some v =>
    cases hv : freezer v with
    | error e => simp [optionFreeze, hv, Except.map]
    | ok fv => simp [optionFreeze, hv, Except.map, eq_comm]

theorem freeze_ok_iff (freezer : Value → Except String FrozenValue)
    (p : DynamicLambdaParams) (f : FrozenDynamicLambdaParams) :
    p.freeze freezer = Except.ok f ↔
      optionFreeze freezer p.attributes = Except.ok f.attributes
    ∧ optionFreeze freezer p.plugins = Except.ok f.plugins
    ∧ freezer p.lambda = Except.ok f.lambda
    ∧ optionFreeze freezer p.arg = Except.ok f.arg
    ∧ f.static_fields = p.static_fields := by
  obtain ⟨fa0, fp0, fl0, fg0, fs0⟩ := f
  unfold DynamicLambdaParams.freeze
  cases ha : optionFreeze freezer p.attributes with
  | error e => rw [except_bind_error]; simp
  | ok fa =>
    rw [except_bind_ok]
    cases hp : optionFreeze freezer p.plugins with
    | error e => rw [except_bind_error]; simp
    | ok fp =>
      rw [except_bind_ok]
      cases hl : freezer p.lambda with
      | error e => rw [except_bind_error]; simp
      | ok fl =>
        rw [except_bind_ok]
        cases hg : optionFreeze freezer p.arg with
        | error e => rw [except_bind_error]; simp
        | ok fg =>
          rw [except_bind_ok]
          simp only [Except.ok.injEq, FrozenDynamicLambdaParams.mk.injEq]
          constructor
          · rintro ⟨h1, h2, h3, h4, h5⟩
            exact ⟨h1, h2, h3, h4, h5.symm⟩
          · rintro ⟨h1, h2, h3, h4, h5⟩
            exact ⟨h1, h2, h3, h4, h5.symm⟩

/-- Claim C1: if the freeze of any one field of a mutable bundle fails,
the whole conversion fails with that first failure propagated, and no
frozen bundle is produced. -/
theorem freeze_propagates_first_failure
    (freezer : Value → Except String FrozenValue)
    (p : DynamicLambdaParams) (e : String) :
    (optionFreeze freezer p.attributes = Except.error e →
        p.freeze freezer = Except.error e)
  ∧ (∀ fa, optionFreeze freezer p.attributes = Except.ok fa →
        optionFreeze freezer p.plugins = Except.error e →
        p.freeze freezer = Except.error e)
  ∧ (∀ fa fp, optionFreeze freezer p.attributes = Except.ok fa →
        optionFreeze freezer p.plugins = Except.ok fp →
        freezer p.lambda = Except.error e →
        p.freeze freezer = Except.error e)
  ∧ (∀ fa fp fl, optionFreeze freezer p.attributes = Except.ok fa →
        optionFreeze freezer p.plugins = Except.ok fp →
        freezer p.lambda = Except.ok fl →
        optionFreeze freezer p.arg = Except.error e →
        p.freeze freezer = Except.error e)
  ∧ (p.freeze freezer = Except.error e →
        ∀ f, p.freeze freezer ≠ Except.ok f) := by
  refine ⟨?_, ?_, ?_, ?_, ?_⟩
  · intro ha
    unfold DynamicLambdaParams.freeze
    rw [ha, except_bind_error]
  · intro fa ha hp
    unfold DynamicLambdaParams.freeze
    rw [ha, except_bind_ok, hp, except_bind_error]
  · intro fa fp ha hp hl
    unfold DynamicLambdaParams.freeze
    rw [ha, except_bind_ok, hp, except_bind_ok, hl, except_bind_error]
  · intro fa fp fl ha hp hl hg
    unfold DynamicLambdaParams.freeze
    rw [ha, except_bind_ok, hp, except_bind_ok, hl, except_bind_ok, hg,
      except_bind_error]
  · intro he f hf
    rw [he] at hf
    exact Except.noConfusion hf

theorem freeze_propagates_first_failure_witness :
    exBundleWithPlugins.freeze pluginsFailFreezer
      = Except.error "cannot freeze plugins" :=
  (freeze_propagates_first_failure pluginsFailFreezer exBundleWithPlugins
      "cannot freeze plugins").2.1 none rfl rfl

/-- Claim C8: a successful freeze copies the embedded static metadata by
value without any conversion: the frozen bundle holds exactly the static
fields of the mutable bundle. -/
theorem freeze_copies_static_fields
    (freezer : Value → Except String FrozenValue)
    (p : DynamicLambdaParams) (f : FrozenDynamicLambdaParams)
    (h : p.freeze freezer = Except.ok f) :
    f.static_fields = p.static_fields :=
  ((freeze_ok_iff freezer p f).mp h).2.2.2.2

theorem freeze_copies_static_fields_witness :
    FrozenDynamicLambdaParams.static_fields
        { attributes := none, plugins := none,
          lambda := { kind := VKind.callableKind, payload := 7 }, arg := none,
          static_fields := exStatic }
      = exBundleNoOptional.static_fields :=
  freeze_copies_static_fields okFreezer exBundleNoOptional
    { attributes := none, plugins := none,
      lambda := { kind := VKind.callableKind, payload := 7 }, arg := none,
      static_fields := exStatic } rfl

/-- Claim C2 counterexample: a mutable bundle with no populated optional
field whose freeze nevertheless fails, because the mandatory callable
itself fails to freeze; so freezing a bundle with no populated optional
fields does not always succeed. -/
theorem freeze_no_optional_fields_can_fail :
    exBundleNoOptional.attributes = none
  ∧ exBundleNoOptional.plugins = none
  ∧ exBundleNoOptional.arg = none
  ∧ exBundleNoOptional.freeze failingFreezer = Except.error "cannot freeze" :=
  ⟨rfl, rfl, rfl, rfl⟩

/-- Claim C2 (amended): each optional field is frozen independently - an
absent field stays `none` and a present field `some v` becomes `some` of
the frozen `v` - and a bundle with no populated optional fields freezes
successfully whenever the mandatory callable itself freezes, in which case
every optional accessor of the frozen bundle returns absent. -/
theorem freeze_optional_fields_independent
    (freezer : Value → Except String FrozenValue) (p : DynamicLambdaParams) :
    (∀ f, p.freeze freezer = Except.ok f →
       (p.attributes = none → f.attributes = none)
     ∧ (∀ v, p.attributes = some v →
          ∃ fv, freezer v = Except.ok fv ∧ f.attributes = some fv)
     ∧ (p.plugins = none → f.plugins = none)
     ∧ (∀ v, p.plugins = some v →
          ∃ fv, freezer v = Except.ok fv ∧ f.plugins = some fv)
     ∧ (p.arg = none → f.arg = none)
     ∧ (∀ v, p.arg = some v →
          ∃ fv, freezer v = Except.ok fv ∧ f.arg = some fv))
  ∧ (∀ fl, p.attributes = none → p.plugins = none → p.arg = none →
       freezer p.lambda = Except.ok fl →
       p.freeze freezer = Except.ok
           { attributes := none, plugins := none, lambda := fl, arg := none,
             static_fields := p.static_fields }
     ∧ FrozenDynamicLambdaParams.attributesAcc
           { attributes := none, plugins := none, lambda := fl, arg := none,
             static_fields := p.static_fields } = Except.ok none
     ∧ FrozenDynamicLambdaParams.pluginsAcc
           { attributes := none, plugins := none, lambda := fl, arg := none,
             static_fields := p.static_fields } = Except.ok none
     ∧ FrozenDynamicLambdaParams.argAcc
           { attributes := none, plugins := none, lambda := fl, arg := none,
             static_fields := p.static_fields } = none) := by
  constructor
  · intro f hf
    obtain ⟨ha, hp, _, hg, _⟩ := (freeze_ok_iff freezer p f).mp hf
    refine ⟨?_, ?_, ?_, ?_, ?_, ?_⟩
    · intro h0
      rcases (optionFreeze_ok_iff freezer p.attributes f.attributes).mp ha with
        ⟨_, h⟩ | ⟨v, fv, hv, _, _⟩
      · exact h
      · rw [h0] at hv; exact Option.noConfusion hv
    · intro v h0
      rcases (optionFreeze_ok_iff freezer p.attributes f.attributes).mp ha with
        ⟨h, _⟩ | ⟨w, fv, hw, hfw, hr⟩
      · rw [h0] at h; exact Option.noConfusion h
      · rw [h0] at hw
        cases Option.some.injEq v w ▸ hw with
        | refl => exact ⟨fv, hfw, hr⟩
    · intro h0
      rcases (optionFreeze_ok_iff freezer p.plugins f.plugins).mp hp with
        ⟨_, h⟩ | ⟨v, fv, hv, _, _⟩
      · exact h
      · rw [h0] at hv; exact Option.noConfusion hv
    · intro v h0
      rcases (optionFreeze_ok_iff freezer p.plugins f.plugins).mp hp with
        ⟨h, _⟩ | ⟨w, fv, hw, hfw, hr⟩
      · rw [h0] at h; exact Option.noConfusion h
      · rw [h0] at hw
        cases Option.some.injEq v w ▸ hw with
        | refl => exact ⟨fv, hfw, hr⟩
    · intro h0
      rcases (optionFreeze_ok_iff freezer p.arg f.arg).mp hg with
        ⟨_, h⟩ | ⟨v, fv, hv, _, _⟩
      · exact h
      · rw [h0] at hv; exact Option.noConfusion hv
    · intro v h0
      rcases (optionFreeze_ok_iff freezer p.arg f.arg).mp hg with
        ⟨h, _⟩ | ⟨w, fv, hw, hfw, hr⟩
      · rw [h0] at h; exact Option.noConfusion h
      · rw [h0] at hw
        cases Option.some.injEq v w ▸ hw with
        | refl => exact ⟨fv, hfw, hr⟩
  · intro fl h1 h2 h3 hl
    refine ⟨?_, rfl, rfl, rfl⟩
    refine (freeze_ok_iff freezer p _).mpr ⟨?_, ?_, ?_, ?_, rfl⟩
    · rw [h1]; rfl
    · rw [h2]; rfl
    · exact hl
    · rw [h3]; rfl

theorem freeze_optional_fields_independent_witness :
    exBundleNoOptional.freeze okFreezer = Except.ok
      { attributes := none, plugins := none,
        lambda := { kind := VKind.callableKind, payload := 7 }, arg := none,
        static_fields := exStatic } :=
  ((freeze_optional_fields_independent okFreezer exBundleNoOptional).2
      { kind := VKind.callableKind, payload := 7 } rfl rfl rfl rfl).1

/-- Claim C3: each accessor of the frozen bundle returns the stored value,
`none` when an optional field is absent; the capability-set accessor
re-checks the kind of the stored value and fails with a distinct internal
invariant error, never a silent coercion, when a value of the wrong kind
was stored where the `AnalysisPlugins` collection was expected. -/
theorem frozen_accessors_spec (f : FrozenDynamicLambdaParams) :
    f.attributesAcc = Except.ok (f.attributes.map FrozenValue.to_value)
  ∧ (f.plugins = none → f.pluginsAcc = Except.ok none)
  ∧ (∀ q, f.plugins = some q → q.kind = VKind.pluginsKind →
        f.pluginsAcc = Except.ok (some q.to_value))
  ∧ (∀ q, f.plugins = some q → q.kind ≠ VKind.pluginsKind →
        f.pluginsAcc
          = Except.error (internalError "plugins must be AnalysisPlugins"))
  ∧ f.lambdaAcc = f.lambda.to_value
  ∧ f.argAcc = f.arg.map FrozenValue.to_value := by
  refine ⟨?_, ?_, ?_, ?_, rfl, rfl⟩
  · cases h : f.attributes with
    | none => simp [FrozenDynamicLambdaParams.attributesAcc, h]
    | some a => simp [FrozenDynamicLambdaParams.attributesAcc, h]
  · intro h
    simp [FrozenDynamicLambdaParams.pluginsAcc, h]
  · intro q hq hk
    simp [FrozenDynamicLambdaParams.pluginsAcc, hq, valueTypedComplexNew,
      FrozenValue.to_value, hk]
  · intro q hq hk
    simp [FrozenDynamicLambdaParams.pluginsAcc, hq, valueTypedComplexNew,
      FrozenValue.to_value, hk]

theorem frozen_accessors_spec_witness :
    FrozenDynamicLambdaParams.pluginsAcc
        { attributes := none,
          plugins := some { kind := VKind.callableKind, payload := 3 },
          lambda := { kind := VKind.callableKind, payload := 0 }, arg := none,
          static_fields := exStatic }
      = Except.error (internalError "plugins must be AnalysisPlugins") :=
  (frozen_accessors_spec
      { attributes := none,
        plugins := some { kind := VKind.callableKind, payload := 3 },
        lambda := { kind := VKind.callableKind, payload := 0 }, arg := none,
        static_fields := exStatic }).2.2.2.1
    { kind := VKind.callableKind, payload := 3 } rfl (by decide)
